import Mathlib

/-!
Shallow embedding of the pg_sqlite_fs extension (src/pg.c and the older
variant src/pg_sqlite_fs.c).  The SQLite tables `entries` and `files` are
modelled as Lean lists of structured rows; each C function of the extension
becomes a Lean function over those lists.  The PostgreSQL SPI row-source
consumed by the bulk loaders is modelled as a list of column types together
with a list of rows, a row being a list of nullable typed values accessed
positionally, exactly as the C code accesses `SPI_tuptable`.

Engine behaviour assumed by the model: SQLite statements either succeed or
fail deterministically as dictated by the schema (unique indexes, missing
tables); `BEGIN`/`ROLLBACK`/`COMMIT` themselves succeed.  `sqlite3_open`
(used by create/insert/exec paths) creates a zero-byte file when the path
does not exist, while `sqlite3_open_v2(..., SQLITE_OPEN_READWRITE, ...)`
(used by delete/truncate paths) fails on a missing file.
-/

namespace PgSqliteFs

/-- Declared PostgreSQL column types the loaders compare against
(`INT8OID`, `INT4OID`, `TEXTOID`, `BYTEAOID`, `BOOLOID`). -/
inductive PgType
  | int8
  | int4
  | text
  | bytea
  | boolean
deriving DecidableEq, Repr

/-- A non-null SPI value, as extracted by the `DatumGet*` calls. -/
inductive PgVal
  | vint (i : Int)
  | vtext (s : String)
  | vbytea (b : List Nat)
  | vbool (b : Bool)
deriving DecidableEq, Repr

/-- The row-set produced by `SPI_execute`: declared column types plus rows of
nullable values, both accessed by position (`TupleDescAttr`, `SPI_getbinval`). -/
structure RowSet where
  coltypes : List PgType
  rows : List (List (Option PgVal))
deriving DecidableEq, Repr

/-- One row of the `entries` table of src/pg.c (no `decrypted_size` column;
`is_dir` is stored as the bound 0/1 integer, modelled as `Bool`). -/
structure Entry where
  inode : Int
  name : String
  parent_inode : Int
  ctime : Int
  mtime : Int
  nlink : Int
  size : Int
  is_dir : Bool
deriving DecidableEq, Repr

/-- One row of the `files` table of src/pg.c:
`inode, mountpoint, rel_path, header, payload_size, prepend, append`. -/
structure FileRow where
  inode : Int
  mountpoint : String
  rel_path : String
  header : Option (List Nat)
  payload_size : Int
  prepend : Option (List Nat)
  append : Option (List Nat)
deriving DecidableEq, Repr

/-- The two tables of a src/pg.c store (extended attributes are not needed by
any claim and are omitted). -/
structure Store where
  entries : List Entry
  files : List FileRow
deriving DecidableEq, Repr

/-- The root entry inserted by `pg_sqlite_fs_create` (src/pg.c:255-263):
`INSERT INTO entries(inode, name, parent_inode) VALUES (1, '/', 1)` with the
schema defaults `ctime 0, mtime 0, nlink 1, size 0, is_dir 1`. -/
def rootEntry : Entry :=
  { inode := 1, name := "/", parent_inode := 1,
    ctime := 0, mtime := 0, nlink := 1, size := 0, is_dir := true }

/-- Insertion of the root row with `ON CONFLICT DO NOTHING`: the insert is skipped
when it would violate the `entries` primary key (`inode`) or the unique index
`names` on `(parent_inode, name)` (src/pg.c:235-263). -/
def insertRootIfAbsent (es : List Entry) : List Entry :=
  if es.any (fun e => decide (e.inode = 1) ||
      (decide (e.parent_inode = 1) && decide (e.name = "/")))
  then es
  else es ++ [rootEntry]

/-- The unique index `names ON entries(parent_inode, name)` rejects a write
whose final row shares `(parent_inode, name)` with a row of a different
`inode` (src/pg.c:235-243). -/
def namesConflict (es : List Entry) (e : Entry) : Bool :=
  es.any (fun x => decide (x.inode ≠ e.inode) &&
    decide (x.parent_inode = e.parent_inode) && decide (x.name = e.name))

/-- Upsert `INSERT ... ON CONFLICT(inode) DO UPDATE SET ...` over the
`entries` table: full replacement of the row with the same `inode`, or append. -/
def upsertEntryList (es : List Entry) (e : Entry) : List Entry :=
  if es.any (fun x => decide (x.inode = e.inode))
  then es.map (fun x => if x.inode = e.inode then e else x)
  else es ++ [e]

/-- Upsert `INSERT ... ON CONFLICT(inode) DO UPDATE SET ...` over the `files` table
(src/pg.c:347-356): full replacement keyed by `inode`, or append.  `files`
has no second unique index, so this write cannot hit a constraint. -/
def upsertFileList (fs : List FileRow) (f : FileRow) : List FileRow :=
  if fs.any (fun x => decide (x.inode = f.inode))
  then fs.map (fun x => if x.inode = f.inode then f else x)
  else fs ++ [f]

/-- Function `pg_sqlite_fs_insert_entry` (src/pg.c:411-505): single-row upsert into
`entries`.  `sqlite3_step` returns `SQLITE_CONSTRAINT` when the unique index
`names` is violated, making the function return `false` with the store
untouched (statement-level atomicity); otherwise the upsert applies. -/
def pg_sqlite_fs_insert_entry (es : List Entry) (e : Entry) : Bool × List Entry :=
  if namesConflict es e then (false, es) else (true, upsertEntryList es e)

/-- Function `pg_sqlite_fs_insert_file` (src/pg.c:299-408): single-row upsert into
`files`; only the `inode` primary key can conflict and it is resolved by the
`DO UPDATE`, so the write succeeds. -/
def pg_sqlite_fs_insert_file (fs : List FileRow) (f : FileRow) : Bool × List FileRow :=
  (true, upsertFileList fs f)

/-- Function `pg_sqlite_fs_delete_file` (src/pg.c:508-554):
`DELETE FROM files WHERE inode = ?`. -/
def pg_sqlite_fs_delete_file (fs : List FileRow) (i : Int) : List FileRow :=
  fs.filter (fun f => !(decide (f.inode = i)))

/-- Function `pg_sqlite_fs_delete_entry` (src/pg.c:556-606):
`DELETE FROM entries WHERE inode = ?1 OR parent_inode = ?1` — the row itself
and its direct children, one level only. -/
def pg_sqlite_fs_delete_entry (es : List Entry) (i : Int) : List Entry :=
  es.filter (fun e => !(decide (e.inode = i) || decide (e.parent_inode = i)))

/-- Function `pg_sqlite_fs_truncate_entries` (src/pg.c:638-643):
`DELETE FROM entries WHERE inode > 1`; the rows kept are those with
`inode ≤ 1`. -/
def pg_sqlite_fs_truncate_entries (es : List Entry) : List Entry :=
  es.filter (fun e => decide (e.inode ≤ 1))

/-- Function `pg_sqlite_fs_truncate_files` (src/pg.c:645-651): `DELETE FROM files`. -/
def pg_sqlite_fs_truncate_files (_fs : List FileRow) : List FileRow :=
  []

/-! Bulk loaders (src/pg.c:727-918 and 922-1128).

Row extraction mirrors the `SPI_getbinval`/`isnull` pattern: a cell is
`none` outside the descriptor (position past `natts`), `some none` when the
column is present but NULL, and `some (some v)` otherwise. -/

/-- Outcome of reading one cell as an int64/int4 (`DatumGetUInt64` /
`DatumGetUInt32` after `SPI_getbinval`): `none` when the position does not
hold an integer column, `some none` for SQL NULL, `some (some v)` else. -/
def cellInt : Option (Option PgVal) → Option (Option Int)
  | some none => some none
  | some (some (.vint v)) => some (some v)
  | _ => none

/-- Reading one cell as text (`DatumGetTextPP`). -/
def cellText : Option (Option PgVal) → Option (Option String)
  | some none => some none
  | some (some (.vtext s)) => some (some s)
  | _ => none

/-- Reading one cell as a bytea blob (`DatumGetByteaP`). -/
def cellBlob : Option (Option PgVal) → Option (Option (List Nat))
  | some none => some none
  | some (some (.vbytea b)) => some (some b)
  | _ => none

/-- Reading one cell as a boolean (`DatumGetBool`). -/
def cellBool : Option (Option PgVal) → Option (Option Bool)
  | some none => some none
  | some (some (.vbool b)) => some (some b)
  | _ => none

/-- Result of extracting one source row: either a typed row, or the first
NULL required column (the `W("... can't be NULL"); goto bailout_spi` path),
or a cell that does not carry the expected kind of value at all. -/
inductive RowRead (α : Type)
  | ok (a : α)
  | nullRequired (col : String)
  | typeErr
deriving DecidableEq, Repr

/-- State of the load right before the transaction is closed: the final
table contents, or the error that sent control to `bailout_spi`. -/
inductive LoadResult (σ : Type)
  | ok (s : σ)
  | nullField (col : String)
  | rowTypeErr
  | constraintErr
deriving DecidableEq, Repr

/-- Column-shape validation of `pg_sqlite_fs_insert_entries`
(src/pg.c:1008-1022): exactly 9 attributes, with positions 0-7 checked
against INT8, TEXT, INT8, INT8, INT8, INT4, INT8, BOOL.  Position 8's type
is never inspected. -/
def checkEntriesCols (ts : List PgType) : Bool :=
  decide (ts.length = 9) &&
  decide (ts.get? 0 = some .int8) &&
  decide (ts.get? 1 = some .text) &&
  decide (ts.get? 2 = some .int8) &&
  decide (ts.get? 3 = some .int8) &&
  decide (ts.get? 4 = some .int8) &&
  decide (ts.get? 5 = some .int4) &&
  decide (ts.get? 6 = some .int8) &&
  decide (ts.get? 7 = some .boolean)

/-- Column-shape validation of `pg_sqlite_fs_insert_files`
(src/pg.c:809-822): the count check demands exactly 4 attributes
(`natts != 4` aborts), yet the type checks probe positions 0-6 against
INT8, TEXT, TEXT, BYTEA, INT8, BYTEA, BYTEA.  A position at or past the
attribute count does not exist in the descriptor and cannot carry the
expected type, so its check fails (`ts.get? p = none`). -/
def checkFilesCols (ts : List PgType) : Bool :=
  decide (ts.length = 4) &&
  decide (ts.get? 0 = some .int8) &&
  decide (ts.get? 1 = some .text) &&
  decide (ts.get? 2 = some .text) &&
  decide (ts.get? 3 = some .bytea) &&
  decide (ts.get? 4 = some .int8) &&
  decide (ts.get? 5 = some .bytea) &&
  decide (ts.get? 6 = some .bytea)

/-- Extraction of one `entries` source row (src/pg.c:1024-1071): SPI columns
1-8 (positions 0-7) are read in order and each is required — a NULL in any
of them aborts.  Position 8 (the ninth column) is never read. -/
def readEntryRow (r : List (Option PgVal)) : RowRead Entry :=
  match cellInt (r.get? 0) with
  | none => .typeErr
  | some none => .nullRequired "inode"
  | some (some inode) =>
  match cellText (r.get? 1) with
  | none => .typeErr
  | some none => .nullRequired "name"
  | some (some name) =>
  match cellInt (r.get? 2) with
  | none => .typeErr
  | some none => .nullRequired "parent_inode"
  | some (some parent_inode) =>
  match cellInt (r.get? 3) with
  | none => .typeErr
  | some none => .nullRequired "ctime"
  | some (some ctime) =>
  match cellInt (r.get? 4) with
  | none => .typeErr
  | some none => .nullRequired "mtime"
  | some (some mtime) =>
  match cellInt (r.get? 5) with
  | none => .typeErr
  | some none => .nullRequired "nlink"
  | some (some nlink) =>
  match cellInt (r.get? 6) with
  | none => .typeErr
  | some none => .nullRequired "size"
  | some (some size) =>
  match cellBool (r.get? 7) with
  | none => .typeErr
  | some none => .nullRequired "is_dir"
  | some (some is_dir) =>
    .ok { inode, name, parent_inode, ctime, mtime, nlink, size, is_dir }

/-- Extraction of one `files` source row (src/pg.c:825-878): `inode`,
`mountpoint` and `rel_path` are required (NULL aborts); `header`, `prepend`
and `append` bind SQL NULL when absent; a NULL `payload_size` binds the
default 0 instead of aborting (src/pg.c:856-857). -/
def readFileRow (r : List (Option PgVal)) : RowRead FileRow :=
  match cellInt (r.get? 0) with
  | none => .typeErr
  | some none => .nullRequired "inode"
  | some (some inode) =>
  match cellText (r.get? 1) with
  | none => .typeErr
  | some none => .nullRequired "mountpoint"
  | some (some mountpoint) =>
  match cellText (r.get? 2) with
  | none => .typeErr
  | some none => .nullRequired "path"
  | some (some rel_path) =>
  match cellBlob (r.get? 3) with
  | none => .typeErr
  | some header =>
  match cellInt (r.get? 4) with
  | none => .typeErr
  | some payloadCell =>
  match cellBlob (r.get? 5) with
  | none => .typeErr
  | some prepend =>
  match cellBlob (r.get? 6) with
  | none => .typeErr
  | some append =>
    .ok { inode, mountpoint, rel_path, header,
          payload_size := payloadCell.getD 0, prepend, append }

/-- Row-processing loop of `pg_sqlite_fs_insert_entries` (src/pg.c:1024-1101):
rows are replayed in source order onto the shared prepared upsert statement;
the first failing row aborts the whole loop.  A `names`-index violation
surfaces as `SQLITE_CONSTRAINT` from `sqlite3_step`. -/
def loadEntryRows : List Entry → List (List (Option PgVal)) → LoadResult (List Entry)
  | es, [] => .ok es
  | es, r :: rs =>
    match readEntryRow r with
    | .nullRequired c => .nullField c
    | .typeErr => .rowTypeErr
    | .ok e =>
      if namesConflict es e then .constraintErr
      else loadEntryRows (upsertEntryList es e) rs

/-- Row-processing loop of `pg_sqlite_fs_insert_files` (src/pg.c:825-891). -/
def loadFileRows : List FileRow → List (List (Option PgVal)) → LoadResult (List FileRow)
  | fs, [] => .ok fs
  | fs, r :: rs =>
    match readFileRow r with
    | .nullRequired c => .nullField c
    | .typeErr => .rowTypeErr
    | .ok f => loadFileRows (upsertFileList fs f) rs

/-- Function `pg_sqlite_fs_insert_entries` (src/pg.c:922-1128) on an open store.
On any failure after `BEGIN` the transaction is rolled back, so the table is
left unchanged; but the closing code (src/pg.c:1116-1122) overwrites `rc`
with the result of executing `ROLLBACK`/`COMMIT` itself, so the function
returns `true` whenever that statement succeeds — on the error paths as well
as on success. -/
def pg_sqlite_fs_insert_entries (es : List Entry) (src : RowSet) : Bool × List Entry :=
  if checkEntriesCols src.coltypes then
    match loadEntryRows es src.rows with
    | .ok es2 => (true, es2)
    | _ => (true, es)
  else (true, es)

/-- Function `pg_sqlite_fs_insert_files` (src/pg.c:727-918) on an open store; the
transaction close has the same `rc`-overwriting shape as
`pg_sqlite_fs_insert_entries` (src/pg.c:902-912). -/
def pg_sqlite_fs_insert_files (fs : List FileRow) (src : RowSet) : Bool × List FileRow :=
  if checkFilesCols src.coltypes then
    match loadFileRows fs src.rows with
    | .ok fs2 => (true, fs2)
    | _ => (true, fs)
  else (true, fs)

/-! The store-file state machine.

`Absent`: no file at the path.  `Raw`: a file exists but holds no schema —
the state left behind when a create-mode `sqlite3_open` touches a missing
path (the open itself creates a zero-byte database).  `Ready st`: the schema
of `pg_sqlite_fs_create` exists and the tables hold `st`. -/
inductive DbFile
  | Absent
  | Raw
  | Ready (st : Store)
deriving DecidableEq, Repr

/-- Function `pg_sqlite_fs_create` (src/pg.c:146-273): `sqlite3_open` in create mode,
`CREATE TABLE/INDEX IF NOT EXISTS`, then the root insert with
`ON CONFLICT DO NOTHING`. -/
def pg_sqlite_fs_create_file : DbFile → Bool × DbFile
  | .Absent => (true, .Ready { entries := [rootEntry], files := [] })
  | .Raw => (true, .Ready { entries := [rootEntry], files := [] })
  | .Ready st =>
      (true, .Ready { entries := insertRootIfAbsent st.entries, files := st.files })

/-- Function `pg_sqlite_fs_remove` (src/pg.c:276-296): `unlink` of the backing file;
fails when the file is missing. -/
def pg_sqlite_fs_remove_file : DbFile → Bool × DbFile
  | .Absent => (false, .Absent)
  | .Raw => (true, .Absent)
  | .Ready _ => (true, .Absent)

/-- Function `pg_sqlite_fs_insert_entry` at the file level: `sqlite3_open`
(src/pg.c:436, create mode) succeeds even on a missing file — creating it —
after which preparing the INSERT fails for lack of an `entries` table. -/
def pg_sqlite_fs_insert_entry_file (f : DbFile) (e : Entry) : Bool × DbFile
  := match f with
  | .Absent => (false, .Raw)
  | .Raw => (false, .Raw)
  | .Ready st =>
      let r := pg_sqlite_fs_insert_entry st.entries e
      (r.1, .Ready { entries := r.2, files := st.files })

/-- Function `pg_sqlite_fs_insert_file` at the file level (create-mode open at
src/pg.c:326). -/
def pg_sqlite_fs_insert_file_file (f : DbFile) (x : FileRow) : Bool × DbFile
  := match f with
  | .Absent => (false, .Raw)
  | .Raw => (false, .Raw)
  | .Ready st =>
      let r := pg_sqlite_fs_insert_file st.files x
      (r.1, .Ready { entries := st.entries, files := r.2 })

/-- Function `pg_sqlite_fs_delete_file` at the file level: `sqlite3_open_v2` with
`SQLITE_OPEN_READWRITE` only (src/pg.c:521) fails on a missing file and the
`elog(ERROR, ...)` aborts the call without touching anything. -/
def pg_sqlite_fs_delete_file_file (f : DbFile) (i : Int) : Bool × DbFile
  := match f with
  | .Absent => (false, .Absent)
  | .Raw => (false, .Raw)
  | .Ready st =>
      (true, .Ready { entries := st.entries, files := pg_sqlite_fs_delete_file st.files i })

/-- Function `pg_sqlite_fs_delete_entry` at the file level (read-write-only open at
src/pg.c:569). -/
def pg_sqlite_fs_delete_entry_file (f : DbFile) (i : Int) : Bool × DbFile
  := match f with
  | .Absent => (false, .Absent)
  | .Raw => (false, .Raw)
  | .Ready st =>
      (true, .Ready { entries := pg_sqlite_fs_delete_entry st.entries i, files := st.files })

/-- Function `pg_sqlite_fs_truncate_entries` at the file level (read-write-only open
at src/pg.c:620). -/
def pg_sqlite_fs_truncate_entries_file (f : DbFile) : Bool × DbFile
  := match f with
  | .Absent => (false, .Absent)
  | .Raw => (false, .Raw)
  | .Ready st =>
      (true, .Ready { entries := pg_sqlite_fs_truncate_entries st.entries, files := st.files })

/-- Function `pg_sqlite_fs_truncate_files` at the file level. -/
def pg_sqlite_fs_truncate_files_file (f : DbFile) : Bool × DbFile
  := match f with
  | .Absent => (false, .Absent)
  | .Raw => (false, .Raw)
  | .Ready st =>
      (true, .Ready { entries := st.entries, files := pg_sqlite_fs_truncate_files st.files })

/-- Function `pg_sqlite_fs_insert_entries` at the file level: the create-mode open
(src/pg.c:947) creates a missing file; preparing the INSERT then fails (no
`entries` table), control reaches the transaction close with `rc ≠ 0`, the
`ROLLBACK` succeeds and `rc` is overwritten with 0 — so the call returns
`true` (src/pg.c:1116-1122). -/
def pg_sqlite_fs_insert_entries_file (f : DbFile) (src : RowSet) : Bool × DbFile
  := match f with
  | .Absent => (true, .Raw)
  | .Raw => (true, .Raw)
  | .Ready st =>
      let r := pg_sqlite_fs_insert_entries st.entries src
      (r.1, .Ready { entries := r.2, files := st.files })

/-- Function `pg_sqlite_fs_insert_files` at the file level (create-mode open at
src/pg.c:751; transaction close at src/pg.c:902-912). -/
def pg_sqlite_fs_insert_files_file (f : DbFile) (src : RowSet) : Bool × DbFile
  := match f with
  | .Absent => (true, .Raw)
  | .Raw => (true, .Raw)
  | .Ready st =>
      let r := pg_sqlite_fs_insert_files st.files src
      (r.1, .Ready { entries := st.entries, files := r.2 })

/-! The older variant src/pg_sqlite_fs.c.

Its `entries` table carries an extra nullable `decrypted_size` text column
(src/pg_sqlite_fs.c:192-204), and its single-row upsert
`pg_sqlite_fs_insert_entry` (src/pg_sqlite_fs.c:356-461) binds it from an
optional argument.  Only the entry upsert and read-back are needed. -/

/-- One row of the `entries` table of src/pg_sqlite_fs.c. -/
structure EntryFS where
  inode : Int
  name : String
  parent_inode : Int
  decrypted_size : Option String
  ctime : Int
  mtime : Int
  nlink : Int
  size : Int
  is_dir : Bool
deriving DecidableEq, Repr

/-- The `names` unique-index conflict for the older variant. -/
def fsNamesConflict (es : List EntryFS) (e : EntryFS) : Bool :=
  es.any (fun x => decide (x.inode ≠ e.inode) &&
    decide (x.parent_inode = e.parent_inode) && decide (x.name = e.name))

/-- Upsert `INSERT ... ON CONFLICT(inode) DO UPDATE SET ...` with all nine columns,
`decrypted_size` included (src/pg_sqlite_fs.c:397-410). -/
def fsUpsertEntryList (es : List EntryFS) (e : EntryFS) : List EntryFS :=
  if es.any (fun x => decide (x.inode = e.inode))
  then es.map (fun x => if x.inode = e.inode then e else x)
  else es ++ [e]

/-- Function `pg_sqlite_fs_insert_entry` of src/pg_sqlite_fs.c (lines 356-461). -/
def fs_insert_entry (es : List EntryFS) (e : EntryFS) : Bool × List EntryFS :=
  if fsNamesConflict es e then (false, es) else (true, fsUpsertEntryList es e)

/-- Reading the entry with a given inode back from the table (a
`SELECT ... WHERE inode = ?`; `inode` is the primary key, so the first match
is the row). -/
def fsReadEntry (es : List EntryFS) (i : Int) : Option EntryFS :=
  es.find? (fun x => decide (x.inode = i))

/-! Helper lemmas. -/

/-- After replacing every row keyed by `e.inode` (at least one exists), the
first row found under that key is `e`. -/
lemma find_map_upsert (e : EntryFS) (es : List EntryFS)
    (h : es.any (fun x => decide (x.inode = e.inode)) = true) :
    (es.map (fun x => if x.inode = e.inode then e else x)).find?
      (fun x => decide (x.inode = e.inode)) = some e := by
  induction es with
  | nil => simp at h
  | cons x xs ih =>
    by_cases hx : x.inode = e.inode
    · simp [List.find?_cons, hx]
    · have h' : xs.any (fun x => decide (x.inode = e.inode)) = true := by
        simp only [List.any_cons, Bool.or_eq_true, decide_eq_true_eq] at h
        simpa using h.resolve_left hx
      simpa [List.find?_cons, hx] using ih h'

/-- After appending `e` to a list holding no row keyed by `e.inode`, the
first row found under that key is `e`. -/
lemma find_append_upsert (e : EntryFS) (es : List EntryFS)
    (h : es.any (fun x => decide (x.inode = e.inode)) = false) :
    (es ++ [e]).find? (fun x => decide (x.inode = e.inode)) = some e := by
  induction es with
  | nil => simp [List.find?_cons]
  | cons x xs ih =>
    simp only [List.any_cons, Bool.or_eq_false_iff] at h
    have hx : (decide (x.inode = e.inode)) = false := h.1
    simpa [List.find?_cons, hx] using ih h.2

/-- Reading back the upserted inode always returns the upserted row. -/
lemma fsReadEntry_upsert (es : List EntryFS) (e : EntryFS) :
    fsReadEntry (fsUpsertEntryList es e) e.inode = some e := by
  unfold fsUpsertEntryList fsReadEntry
  by_cases h : es.any (fun x => decide (x.inode = e.inode)) = true
  · simpa [h] using find_map_upsert e es h
  · have h' : es.any (fun x => decide (x.inode = e.inode)) = false := by
      revert h; cases es.any (fun x => decide (x.inode = e.inode)) <;> simp
    simpa [h'] using find_append_upsert e es h'

/-- Lemma that `readEntryRow` inspects only positions 0-7 of its row. -/
lemma readEntryRow_take8 (r1 r2 : List (Option PgVal))
    (h : r1.take 8 = r2.take 8) :
    readEntryRow r1 = readEntryRow r2 := by
  have hg : ∀ n, n < 8 → r1.get? n = r2.get? n := by
    intro n hn
    calc r1.get? n = (r1.take 8).get? n := (List.get?_take hn).symm
      _ = (r2.take 8).get? n := by rw [h]
      _ = r2.get? n := List.get?_take hn
  unfold readEntryRow
  rw [hg 0 (by omega), hg 1 (by omega), hg 2 (by omega), hg 3 (by omega),
      hg 4 (by omega), hg 5 (by omega), hg 6 (by omega), hg 7 (by omega)]

/-- The entries row loop is insensitive to anything past position 7 of each
row. -/
lemma loadEntryRows_congr (rs1 : List (List (Option PgVal))) :
    ∀ (rs2 : List (List (Option PgVal))) (es : List Entry),
    rs1.map (fun r => r.take 8) = rs2.map (fun r => r.take 8) →
    loadEntryRows es rs1 = loadEntryRows es rs2 := by
  induction rs1 with
  | nil =>
    intro rs2 es h
    have : rs2 = [] := by
      have h' := h.symm
      simp only [List.map_nil] at h'
      rw [List.map_eq_nil_iff] at h'
      exact h'
    rw [this]
  | cons r1 t1 ih =>
    intro rs2 es h
    cases rs2 with
    | nil => simp at h
    | cons r2 t2 =>
      simp only [List.map_cons, List.cons.injEq] at h
      obtain ⟨hh, ht⟩ := h
      unfold loadEntryRows
      rw [readEntryRow_take8 r1 r2 hh]
      cases readEntryRow r2 with
      | nullRequired c => rfl
      | typeErr => rfl
      | ok e =>
        by_cases hc : namesConflict es e = true
        · simp [hc]
        · have hc' : namesConflict es e = false := by
            revert hc; cases namesConflict es e <;> simp
          simp only [hc', Bool.false_eq_true, if_false]
          exact ih t2 (upsertEntryList es e) ht

/-! Claims. -/

/-- C1.  Evaluation of `pg_sqlite_fs_insert_entries` on a store holding the
root and a three-row source whose second row has a NULL `name`: the
transaction is rolled back, so the entries table is identical to its
pre-call state, yet the call returns `true` — because the transaction-close
code at src/pg.c:1116-1122 overwrites the error code with the exit status of
the `ROLLBACK` statement itself.  The claim (and the spec) say such a call
returns failure; the rollback half holds, the returned boolean does not. -/
theorem c1_bulk_entries_null_rolls_back_but_returns_true :
    pg_sqlite_fs_insert_entries [rootEntry]
      { coltypes := [.int8, .text, .int8, .int8, .int8, .int4, .int8, .boolean, .text],
        rows := [
          [some (.vint 2), some (.vtext "a"), some (.vint 1), some (.vint 10),
           some (.vint 11), some (.vint 1), some (.vint 0), some (.vbool false),
           some (.vtext "x")],
          [some (.vint 3), none, some (.vint 1), some (.vint 10),
           some (.vint 11), some (.vint 1), some (.vint 0), some (.vbool false),
           some (.vtext "x")],
          [some (.vint 4), some (.vtext "b"), some (.vint 1), some (.vint 10),
           some (.vint 11), some (.vint 1), some (.vint 0), some (.vbool false),
           some (.vtext "x")]] }
      = (true, [rootEntry]) ∧
    loadEntryRows [rootEntry]
      [[some (.vint 2), some (.vtext "a"), some (.vint 1), some (.vint 10),
        some (.vint 11), some (.vint 1), some (.vint 0), some (.vbool false),
        some (.vtext "x")],
       [some (.vint 3), none, some (.vint 1), some (.vint 10),
        some (.vint 11), some (.vint 1), some (.vint 0), some (.vbool false),
        some (.vtext "x")]]
      = .nullField "name" := by
  exact ⟨rfl, rfl⟩

/-- C2.  The shape validation of `pg_sqlite_fs_insert_files` in src/pg.c can
never be satisfied: the count check demands exactly 4 source columns
(src/pg.c:810) while the type checks probe positions 0-6 (src/pg.c:816-822),
so positions 4-6 lie outside any 4-column descriptor.  In particular a
source whose shape exactly matches the 7 columns the loader writes
(`inode, mountpoint, rel_path, header, payload_size, prepend, append`) is
rejected at the count check, and the loader never modifies the `files`
table for any input. -/
theorem c2_files_validation_never_passes :
    checkFilesCols [.int8, .text, .text, .bytea, .int8, .bytea, .bytea] = false ∧
    (∀ ts : List PgType, checkFilesCols ts = false) ∧
    (∀ (fs : List FileRow) (src : RowSet),
      pg_sqlite_fs_insert_files fs src = (true, fs)) := by
  have hts : ∀ ts : List PgType, checkFilesCols ts = false := by
    intro ts
    unfold checkFilesCols
    by_cases h : ts.length = 4
    · have h4 : ts[4]? = none := List.getElem?_eq_none (by omega)
      simp [h4]
    · simp [h]
  refine ⟨hts _, hts, fun fs src => ?_⟩
  unfold pg_sqlite_fs_insert_files
  simp [hts src.coltypes]

/-- C5 counterexample.  A `files` source row whose `payload_size` column is
NULL (and no other column is) does not abort the load: the row is accepted
with `payload_size` bound to the default 0 (src/pg.c:856-857), although
`payload_size` is not among the columns the claim designates as optional
(`header`, `prepend`, `append`). -/
theorem c5_counterexample :
    loadFileRows []
      [[some (.vint 7), some (.vtext "m"), some (.vtext "p"), some (.vbytea [1]),
        none, some (.vbytea [2]), some (.vbytea [3])]]
      = .ok [{ inode := 7, mountpoint := "m", rel_path := "p", header := some [1],
               payload_size := 0, prepend := some [2], append := some [3] }] ∧
    loadFileRows []
      [[some (.vint 7), some (.vtext "m"), some (.vtext "p"), some (.vbytea [1]),
        none, some (.vbytea [2]), some (.vbytea [3])]]
      ≠ .nullField "payload_size" := by
  exact ⟨rfl, by decide⟩

/-- C5 amended.  During the `pg_sqlite_fs_insert_files` row loop, rows are
consumed in source order and a NULL in `inode`, `mountpoint` or `rel_path`
aborts the whole loop with the corresponding null-field error; `header`,
`prepend` and `append` bind SQL NULL instead of aborting, and `payload_size`
binds the default 0 when NULL instead of aborting. -/
theorem c5_required_and_optional_columns (fs : List FileRow)
    (rs : List (List (Option PgVal))) (i p : Int) (m q : String)
    (h pre app : List Nat) :
    loadFileRows fs
      ([none, some (.vtext m), some (.vtext q), some (.vbytea h),
        some (.vint p), some (.vbytea pre), some (.vbytea app)] :: rs)
      = .nullField "inode" ∧
    loadFileRows fs
      ([some (.vint i), none, some (.vtext q), some (.vbytea h),
        some (.vint p), some (.vbytea pre), some (.vbytea app)] :: rs)
      = .nullField "mountpoint" ∧
    loadFileRows fs
      ([some (.vint i), some (.vtext m), none, some (.vbytea h),
        some (.vint p), some (.vbytea pre), some (.vbytea app)] :: rs)
      = .nullField "path" ∧
    readFileRow
      [some (.vint i), some (.vtext m), some (.vtext q), none, none, none, none]
      = .ok { inode := i, mountpoint := m, rel_path := q, header := none,
              payload_size := 0, prepend := none, append := none } := by
  exact ⟨rfl, rfl, rfl, rfl⟩

/-- C6.  Upserting an entry whose `(parent_inode, name)` pair is already
held by a row with a different inode hits the unique index `names`:
`pg_sqlite_fs_insert_entry` returns `false` and the table is unchanged. -/
theorem c6_distinct_inode_same_name_fails_unchanged
    (es : List Entry) (e x : Entry) (hx : x ∈ es)
    (hp : x.parent_inode = e.parent_inode) (hn : x.name = e.name)
    (hi : x.inode ≠ e.inode) :
    pg_sqlite_fs_insert_entry es e = (false, es) := by
  unfold pg_sqlite_fs_insert_entry
  have hc : namesConflict es e = true := by
    unfold namesConflict
    rw [List.any_eq_true]
    exact ⟨x, hx, by simp [hp, hn, hi]⟩
  simp [hc]

/-- C6 witness: the root occupies `(parent_inode 1, name "/")`, so inserting
inode 2 under the same pair fails and leaves the singleton store as it was. -/
theorem c6_witness :
    pg_sqlite_fs_insert_entry [rootEntry]
      { inode := 2, name := "/", parent_inode := 1, ctime := 5, mtime := 6,
        nlink := 1, size := 0, is_dir := true }
      = (false, [rootEntry]) :=
  c6_distinct_inode_same_name_fails_unchanged [rootEntry] _ rootEntry
    (by simp) (by decide) (by decide) (by decide)

/-- C3 counterexample.  Invoking the bulk entries loader on an Absent store
does not fail with a store-open error: `sqlite3_open` (create mode,
src/pg.c:947) creates the missing file, the failed prepare is swallowed by
the `rc`-overwriting transaction close, and the call returns `true` leaving
a raw store file behind — the store file is no longer Absent, so `create`
is not the only Absent-to-Present transition. -/
theorem c3_counterexample :
    pg_sqlite_fs_insert_entries_file .Absent { coltypes := [], rows := [] }
      = (true, .Raw) ∧
    DbFile.Raw ≠ DbFile.Absent := by
  exact ⟨rfl, by decide⟩

/-- C3 amended.  Only the operations opened with
`sqlite3_open_v2(..., SQLITE_OPEN_READWRITE, ...)` — `deleteFile`,
`deleteEntrySubtree`, `truncateEntries`, `truncateFiles` — fail on an Absent
store and leave it Absent.  The operations opened with `sqlite3_open`
(create mode) — `upsertEntry`, `upsertFile` and both bulk loaders — create
the missing file, transitioning the store from Absent to a raw (schemaless)
Present file; the single-row upserts then return `false`, while the bulk
loaders even return `true`. -/
theorem c3_absent_store_behaviour :
    (∀ i : Int, pg_sqlite_fs_delete_file_file .Absent i = (false, .Absent)) ∧
    (∀ i : Int, pg_sqlite_fs_delete_entry_file .Absent i = (false, .Absent)) ∧
    pg_sqlite_fs_truncate_entries_file .Absent = (false, .Absent) ∧
    pg_sqlite_fs_truncate_files_file .Absent = (false, .Absent) ∧
    (∀ e : Entry, pg_sqlite_fs_insert_entry_file .Absent e = (false, .Raw)) ∧
    (∀ x : FileRow, pg_sqlite_fs_insert_file_file .Absent x = (false, .Raw)) ∧
    (∀ src : RowSet, pg_sqlite_fs_insert_entries_file .Absent src = (true, .Raw)) ∧
    (∀ src : RowSet, pg_sqlite_fs_insert_files_file .Absent src = (true, .Raw)) ∧
    DbFile.Raw ≠ DbFile.Absent := by
  exact ⟨fun _ => rfl, fun _ => rfl, rfl, rfl, fun _ => rfl, fun _ => rfl,
    fun _ => rfl, fun _ => rfl, by decide⟩

/-- C4 counterexample.  `deleteEntrySubtree(1)` removes the root: the root
row matches both disjuncts of `DELETE FROM entries WHERE inode = ?1 OR
parent_inode = ?1` at argument 1, so a bulk delete can remove it. -/
theorem c4_counterexample :
    pg_sqlite_fs_delete_entry [rootEntry] 1 = [] ∧
    rootEntry ∈ [rootEntry] := by
  exact ⟨by decide, by simp⟩

/-- C4 amended.  `createStore` on an Absent store yields exactly the root
entry `(inode 1, name "/", parent_inode 1)`; `truncateEntries` never removes
it, and `deleteEntrySubtree(i)` never removes it for any argument `i ≠ 1` —
but `deleteEntrySubtree(1)` does remove it. -/
theorem c4_root_survives_truncate_and_nonroot_delete
    (es : List Entry) (i : Int) (hroot : rootEntry ∈ es) (hi : i ≠ 1) :
    pg_sqlite_fs_create_file .Absent
      = (true, .Ready { entries := [rootEntry], files := [] }) ∧
    rootEntry ∈ pg_sqlite_fs_truncate_entries es ∧
    rootEntry ∈ pg_sqlite_fs_delete_entry es i ∧
    pg_sqlite_fs_delete_entry [rootEntry] 1 = [] := by
  refine ⟨rfl, ?_, ?_, by decide⟩
  · unfold pg_sqlite_fs_truncate_entries
    rw [List.mem_filter]
    exact ⟨hroot, by decide⟩
  · unfold pg_sqlite_fs_delete_entry
    rw [List.mem_filter]
    refine ⟨hroot, ?_⟩
    have h1 : ¬(1 : Int) = i := fun h => hi h.symm
    simp [rootEntry, h1]

/-- C4 witness: the root inside a two-row store survives `truncateEntries`
and `deleteEntrySubtree(2)`. -/
theorem c4_witness :
    pg_sqlite_fs_create_file .Absent
      = (true, .Ready { entries := [rootEntry], files := [] }) ∧
    rootEntry ∈ pg_sqlite_fs_truncate_entries
      [rootEntry, { inode := 2, name := "a", parent_inode := 1, ctime := 0,
                    mtime := 0, nlink := 1, size := 0, is_dir := false }] ∧
    rootEntry ∈ pg_sqlite_fs_delete_entry
      [rootEntry, { inode := 2, name := "a", parent_inode := 1, ctime := 0,
                    mtime := 0, nlink := 1, size := 0, is_dir := false }] 2 ∧
    pg_sqlite_fs_delete_entry [rootEntry] 1 = [] :=
  c4_root_survives_truncate_and_nonroot_delete _ 2 (by simp) (by decide)

/-- C7 counterexample.  `truncateEntries` deletes only `inode > 1`
(src/pg.c:642), so an entry with inode 0 — whose inode differs from 1 —
survives the truncation. -/
theorem c7_counterexample :
    ({ inode := 0, name := "z", parent_inode := 1, ctime := 0, mtime := 0,
       nlink := 1, size := 0, is_dir := false } : Entry)
      ∈ pg_sqlite_fs_truncate_entries
        [rootEntry,
         { inode := 0, name := "z", parent_inode := 1, ctime := 0, mtime := 0,
           nlink := 1, size := 0, is_dir := false }] ∧
    ({ inode := 0, name := "z", parent_inode := 1, ctime := 0, mtime := 0,
       nlink := 1, size := 0, is_dir := false } : Entry).inode ≠ 1 := by
  exact ⟨by decide, by decide⟩

/-- C7 amended.  After `truncateFiles` the `files` table is empty; after
`truncateEntries` exactly the pre-call entries with `inode ≤ 1` remain (the
DELETE predicate is `inode > 1`, so inode 1 — and any entry with inode 0 or
negative — is retained, every entry with inode greater than 1 removed). -/
theorem c7_truncate_semantics (es : List Entry) (fs : List FileRow) (e : Entry) :
    pg_sqlite_fs_truncate_files fs = [] ∧
    (e ∈ pg_sqlite_fs_truncate_entries es ↔ e ∈ es ∧ e.inode ≤ 1) := by
  refine ⟨rfl, ?_⟩
  unfold pg_sqlite_fs_truncate_entries
  rw [List.mem_filter]
  simp

/-- C8.  `deleteEntrySubtree(i)` removes exactly the row keyed `i` and the
rows whose `parent_inode` is `i` — one level; a grandchild `g` (child of a
removed child `c`) remains present, and afterwards no row carries
`g.parent_inode` as its inode: `g`'s parent reference dangles.  The
uniqueness hypothesis is the `entries` primary key on `inode`. -/
theorem c8_shallow_subtree_delete
    (es : List Entry) (i : Int) (g c : Entry)
    (huniq : ∀ a ∈ es, ∀ b ∈ es, a.inode = b.inode → a = b)
    (hg : g ∈ es) (hc : c ∈ es)
    (hcp : c.parent_inode = i) (hci : c.inode ≠ i)
    (hgp : g.parent_inode = c.inode) (hgi : g.inode ≠ i)
    (hgpi : g.parent_inode ≠ i) :
    (∀ x, x ∈ pg_sqlite_fs_delete_entry es i ↔
      x ∈ es ∧ x.inode ≠ i ∧ x.parent_inode ≠ i) ∧
    g ∈ pg_sqlite_fs_delete_entry es i ∧
    (∀ x ∈ pg_sqlite_fs_delete_entry es i, x.inode ≠ g.parent_inode) := by
  have hmem : ∀ x, x ∈ pg_sqlite_fs_delete_entry es i ↔
      x ∈ es ∧ x.inode ≠ i ∧ x.parent_inode ≠ i := by
    intro x
    unfold pg_sqlite_fs_delete_entry
    rw [List.mem_filter]
    simp [not_or, and_assoc]
  refine ⟨hmem, (hmem g).mpr ⟨hg, hgi, hgpi⟩, ?_⟩
  intro x hx heq
  obtain ⟨hxes, _, hxp⟩ := (hmem x).mp hx
  have hxc : x = c := huniq x hxes c hc (by rw [heq, hgp])
  rw [hxc] at hxp
  exact hxp hcp

/-- Three-row chain 1←2←3←4 used to exercise the shallow subtree delete:
inode 2 under the root, 3 under 2, 4 under 3. -/
def demoChild : Entry :=
  { inode := 3, name := "b", parent_inode := 2, ctime := 0, mtime := 0,
    nlink := 1, size := 0, is_dir := true }

/-- Grandchild of inode 2 in the demo chain. -/
def demoGrandchild : Entry :=
  { inode := 4, name := "c", parent_inode := 3, ctime := 0, mtime := 0,
    nlink := 1, size := 0, is_dir := false }

/-- The demo chain store contents. -/
def demoChain : List Entry :=
  [{ inode := 2, name := "a", parent_inode := 1, ctime := 0, mtime := 0,
     nlink := 1, size := 0, is_dir := true },
   demoChild, demoGrandchild]

/-- C8 witness: deleting the subtree at inode 2 in the chain 2 → 3 → 4
removes 2 and 3 but leaves 4 present with a dangling parent reference. -/
theorem c8_witness :
    (∀ x, x ∈ pg_sqlite_fs_delete_entry demoChain 2 ↔
      x ∈ demoChain ∧ x.inode ≠ 2 ∧ x.parent_inode ≠ 2) ∧
    demoGrandchild ∈ pg_sqlite_fs_delete_entry demoChain 2 ∧
    (∀ x ∈ pg_sqlite_fs_delete_entry demoChain 2,
      x.inode ≠ demoGrandchild.parent_inode) :=
  c8_shallow_subtree_delete demoChain 2 demoGrandchild demoChild
    (by decide) (by decide) (by decide) (by decide) (by decide)
    (by decide) (by decide) (by decide)

/-- C9.  A successful `pg_sqlite_fs_insert_entry` of the src/pg_sqlite_fs.c
variant (all nine fields, `decrypted_size` included) followed by a read of
that inode returns exactly the supplied row: the `ON CONFLICT(inode) DO
UPDATE` replaces every column. -/
theorem c9_upsert_then_read_roundtrip (es : List EntryFS) (e : EntryFS)
    (h : (fs_insert_entry es e).1 = true) :
    fsReadEntry (fs_insert_entry es e).2 e.inode = some e := by
  unfold fs_insert_entry at *
  by_cases hc : fsNamesConflict es e = true
  · simp [hc] at h
  · have hc' : fsNamesConflict es e = false := by
      revert hc; cases fsNamesConflict es e <;> simp
    simp only [hc', Bool.false_eq_true, if_false]
    exact fsReadEntry_upsert es e

/-- C9 witness: inserting inode 5 (with a decrypted size) into the singleton
root store succeeds, and reading inode 5 back returns the supplied row. -/
theorem c9_witness :
    (fs_insert_entry
      [{ inode := 1, name := "/", parent_inode := 1, decrypted_size := none,
         ctime := 0, mtime := 0, nlink := 1, size := 0, is_dir := true }]
      { inode := 5, name := "n", parent_inode := 1, decrypted_size := some "12",
        ctime := 3, mtime := 4, nlink := 1, size := 10, is_dir := false }).1
      = true ∧
    fsReadEntry
      (fs_insert_entry
        [{ inode := 1, name := "/", parent_inode := 1, decrypted_size := none,
           ctime := 0, mtime := 0, nlink := 1, size := 0, is_dir := true }]
        { inode := 5, name := "n", parent_inode := 1, decrypted_size := some "12",
          ctime := 3, mtime := 4, nlink := 1, size := 10, is_dir := false }).2 5
      = some { inode := 5, name := "n", parent_inode := 1,
               decrypted_size := some "12", ctime := 3, mtime := 4, nlink := 1,
               size := 10, is_dir := false } :=
  ⟨by decide,
   c9_upsert_then_read_roundtrip
    [{ inode := 1, name := "/", parent_inode := 1, decrypted_size := none,
       ctime := 0, mtime := 0, nlink := 1, size := 0, is_dir := true }]
    { inode := 5, name := "n", parent_inode := 1, decrypted_size := some "12",
      ctime := 3, mtime := 4, nlink := 1, size := 10, is_dir := false }
    (by decide)⟩

/-- C10.  The src/pg.c entries loader demands exactly nine source columns
(src/pg.c:1009) but type-checks, reads and binds only the first eight
(src/pg.c:1015-1022, 1032-1083): two nine-column sources equal in their
first eight columns — in both declared types and every row's values, with
the ninth column free to differ in type and value — produce the same return
value and the same final entries table. -/
theorem c10_ninth_column_never_read (es : List Entry) (src1 src2 : RowSet)
    (h1 : src1.coltypes.length = 9) (h2 : src2.coltypes.length = 9)
    (hty : src1.coltypes.take 8 = src2.coltypes.take 8)
    (hrows : src1.rows.map (fun r => r.take 8) = src2.rows.map (fun r => r.take 8)) :
    (∀ ts : List PgType, checkEntriesCols ts = true → ts.length = 9) ∧
    pg_sqlite_fs_insert_entries es src1 = pg_sqlite_fs_insert_entries es src2 := by
  constructor
  · intro ts h
    unfold checkEntriesCols at h
    simp only [Bool.and_eq_true, decide_eq_true_eq] at h
    exact h.1.1.1.1.1.1.1.1
  · have hg : ∀ n, n < 8 → src1.coltypes.get? n = src2.coltypes.get? n := by
      intro n hn
      calc src1.coltypes.get? n
          = (src1.coltypes.take 8).get? n := (List.get?_take hn).symm
        _ = (src2.coltypes.take 8).get? n := by rw [hty]
        _ = src2.coltypes.get? n := List.get?_take hn
    have hchk : checkEntriesCols src1.coltypes = checkEntriesCols src2.coltypes := by
      unfold checkEntriesCols
      rw [h1, h2, hg 0 (by omega), hg 1 (by omega), hg 2 (by omega),
          hg 3 (by omega), hg 4 (by omega), hg 5 (by omega), hg 6 (by omega),
          hg 7 (by omega)]
    have hload : loadEntryRows es src1.rows = loadEntryRows es src2.rows :=
      loadEntryRows_congr src1.rows src2.rows es hrows
    unfold pg_sqlite_fs_insert_entries
    rw [hchk, hload]

/-- C10 witness: two one-row sources whose ninth column differs both in
declared type (TEXT vs BYTEA) and in value (a string vs NULL) load
identically into the root store. -/
theorem c10_witness :
    List.length
      [PgType.int8, .text, .int8, .int8, .int8, .int4, .int8, .boolean, .text] = 9 ∧
    pg_sqlite_fs_insert_entries [rootEntry]
      { coltypes := [.int8, .text, .int8, .int8, .int8, .int4, .int8, .boolean, .text],
        rows := [[some (.vint 2), some (.vtext "a"), some (.vint 1),
                  some (.vint 0), some (.vint 0), some (.vint 1), some (.vint 0),
                  some (.vbool true), some (.vtext "x")]] }
      = pg_sqlite_fs_insert_entries [rootEntry]
      { coltypes := [.int8, .text, .int8, .int8, .int8, .int4, .int8, .boolean, .bytea],
        rows := [[some (.vint 2), some (.vtext "a"), some (.vint 1),
                  some (.vint 0), some (.vint 0), some (.vint 1), some (.vint 0),
                  some (.vbool true), none]] } :=
  ⟨rfl,
   (c10_ninth_column_never_read [rootEntry]
      { coltypes := [.int8, .text, .int8, .int8, .int8, .int4, .int8, .boolean, .text],
        rows := [[some (.vint 2), some (.vtext "a"), some (.vint 1),
                  some (.vint 0), some (.vint 0), some (.vint 1), some (.vint 0),
                  some (.vbool true), some (.vtext "x")]] }
      { coltypes := [.int8, .text, .int8, .int8, .int8, .int4, .int8, .boolean, .bytea],
        rows := [[some (.vint 2), some (.vtext "a"), some (.vint 1),
                  some (.vint 0), some (.vint 0), some (.vint 1), some (.vint 0),
                  some (.vbool true), none]] }
      rfl rfl rfl rfl).2⟩

end PgSqliteFs
